import Mathlib

/-!
Shallow embedding of `src/mm.c` (implicit free list allocator with boundary
tags: mm_init, extend_heap, find_fit, mm_free, coalesce, mm_malloc, place,
mm_realloc).

Memory is modelled as a total byte map `Int → Nat` over the whole address
space; `GET`/`PUT` act on 4-byte little-endian words exactly as the C
`uint32_t` accesses do (`PUT` truncates to 32 bits).  Addresses are byte
addresses; the C null pointer is the address 0.  The external heap-growth
primitive `mem_sbrk` (memlib, not part of this source unit) is modelled from
the spec as an always-succeeding bump of the break that returns the old top.
The two search loops of `find_fit`, and the block traversal used by the heap
checker, are given explicit fuel because the C loops do not always terminate;
fuel exhaustion is reported as `none` and never identified with a C result.
-/

namespace Malloc

def WSIZE : Nat := 4
def DSIZE : Nat := 8
def CHUNKSIZE : Nat := 4096
def OVERHEAD : Nat := 8

/-- 2^32, the modulus of the C `uint32_t` arithmetic. -/
def U32 : Nat := 4294967296

/-- C: `PACK(size, alloc) = size | (alloc & 0x1)`. -/
def PACK (size : Nat) (alloc : Nat) : Nat := size ||| (alloc &&& 1)

/-- uint32 subtraction `a - b` (wraps modulo 2^32). -/
def sub32 (a b : Nat) : Nat := (a % U32 + (U32 - b % U32)) % U32

/-- Allocator state: byte memory, the two globals of mm.c, and the current
break of the memlib heap (`mem_sbrk(0)`). -/
structure MMState where
  mem : Int → Nat
  heap_listp : Int
  curr_block : Int
  brk : Int

/-- Read one byte. -/
def getByte (s : MMState) (p : Int) : Nat := s.mem p

/-- Write one byte (values are truncated to a byte as real memory would). -/
def putByte (s : MMState) (p : Int) (v : Nat) : MMState :=
  { s with mem := fun q => if q = p then v % 256 else s.mem q }

/-- C: `GET(p)`, a 4-byte little-endian `uint32_t` load. -/
def GET (s : MMState) (p : Int) : Nat :=
  s.mem p + 256 * s.mem (p + 1) + 65536 * s.mem (p + 2) + 16777216 * s.mem (p + 3)

/-- C: `PUT(p, val)`, a 4-byte little-endian `uint32_t` store. -/
def PUT (s : MMState) (p : Int) (v : Nat) : MMState :=
  let w := v % U32
  putByte (putByte (putByte (putByte s p (w % 256)) (p + 1) (w / 256 % 256))
    (p + 2) (w / 65536 % 256)) (p + 3) (w / 16777216 % 256)

/-- C: `GET_SIZE(p) = GET(p) & ~0x7` (on uint32, mask 0xFFFFFFF8). -/
def GET_SIZE (s : MMState) (p : Int) : Nat := GET s p &&& 0xFFFFFFF8

/-- C: `GET_ALLOC(p) = GET(p) & 0x1`. -/
def GET_ALLOC (s : MMState) (p : Int) : Nat := GET s p &&& 1

/-- C: `HDRP(bp) = (char*)bp - WSIZE`. -/
def HDRP (bp : Int) : Int := bp - 4

/-- C: `FTRP(bp) = (char*)bp + GET_SIZE(HDRP(bp)) - DSIZE`. -/
def FTRP (s : MMState) (bp : Int) : Int := bp + (GET_SIZE s (HDRP bp) : Int) - 8

/-- Modelled from the spec: the external growth primitive `mem_sbrk` of
memlib (not part of src/mm.c).  Per the spec it returns the old heap top and
extends the heap; failure is not modelled (all claims are settled on runs
where growth succeeds). -/
def mem_sbrk (s : MMState) (incr : Nat) : Int × MMState :=
  (s.brk, { s with brk := s.brk + (incr : Int) })

/-- C: `NEXT_BLKP(bp)`, with the out-of-bounds check returning NULL (0). -/
def NEXT_BLKP (s : MMState) (bp : Int) : Int :=
  let next : Int := bp + (GET_SIZE s (bp - 4) : Int)
  if next < s.heap_listp ∨ s.brk ≤ next then 0 else next

/-- C: `PREV_BLKP(bp)`, with the out-of-bounds check returning NULL (0). -/
def PREV_BLKP (s : MMState) (bp : Int) : Int :=
  let prev : Int := bp - (GET_SIZE s (bp - 8) : Int)
  if prev < s.heap_listp ∨ s.brk ≤ prev then 0 else prev

/-- C: `coalesce(bp)` of mm.c, lines 261-307, transcribed including the
addresses the size variables are read from and the evaluation order of the
header/footer stores.  Returns the C return value and the final state. -/
def coalesce (s : MMState) (bp : Int) : Int × MMState :=
  let prevBlockSize := GET_SIZE s (PREV_BLKP s (HDRP bp))
  let currBlockSize := GET_SIZE s (HDRP bp)
  let nextBlockSize := GET_SIZE s (NEXT_BLKP s (HDRP bp))
  let prevAllocated := GET_ALLOC s (HDRP (PREV_BLKP s bp))
  let nextAllocated := GET_ALLOC s (HDRP (NEXT_BLKP s bp))
  if prevAllocated ≠ 0 ∧ nextAllocated ≠ 0 then
    (bp, s)
  else if prevAllocated = 0 then
    let newSize := (prevBlockSize + currBlockSize) % U32
    let s1 := PUT s (HDRP (PREV_BLKP s bp)) (PACK newSize 0)
    let s2 := PUT s1 (FTRP s1 (PREV_BLKP s1 bp)) (PACK newSize 0)
    (PREV_BLKP s2 bp, s2)
  else if nextAllocated = 0 then
    let newSize := (nextBlockSize + currBlockSize) % U32
    let s1 := PUT s (HDRP bp) (PACK newSize 0)
    let s2 := PUT s1 (FTRP s1 bp) (PACK newSize 0)
    (bp, s2)
  else
    let newSize := (currBlockSize + nextBlockSize + prevBlockSize) % U32
    let s1 := PUT s (HDRP (PREV_BLKP s bp)) (PACK newSize 0)
    let s2 := PUT s1 (FTRP s1 (PREV_BLKP s1 bp)) (PACK newSize 0)
    (PREV_BLKP s2 bp, s2)

/-- C: `extend_heap(words)` of mm.c, lines 204-209: a bare `mem_sbrk`
followed by `coalesce` on the old break. -/
def extend_heap (s : MMState) (words : Nat) : Int × MMState :=
  let r := mem_sbrk s (words * 4 % U32)
  coalesce r.2 r.1

/-- C: `mm_init` of mm.c, lines 168-198.  `none` is the C return value -1
(extend_heap returned NULL); sbrk success is assumed by the model. -/
def mm_init (s0 : MMState) : Option MMState :=
  let r0 := mem_sbrk s0 (4 * WSIZE)
  let s := { r0.2 with heap_listp := r0.1, curr_block := r0.1 }
  let s1 := PUT s s.heap_listp 0
  let s2 := PUT s1 (s1.heap_listp + (WSIZE : Int)) (PACK 0 1)
  let s3 := PUT s2 (s2.heap_listp + (DSIZE : Int)) (PACK 0 1)
  let s4 := PUT s3 (s3.heap_listp + (DSIZE : Int) + (WSIZE : Int)) (PACK 0 1)
  let r := extend_heap s4 (CHUNKSIZE / WSIZE)
  if r.1 = 0 then none else some r.2

/-- One `for` loop of `find_fit`: start at `i`, bound `limit`, step
`NEXT_BLKP`.  `some (some i)` = C `return i`; `some none` = loop exited;
`none` = fuel exhausted (the C loop runs forever or crashes). -/
def find_fit_loop (s : MMState) (asize : Nat) (limit : Int) :
    Int → Nat → Option (Option Int)
  | _, 0 => none
  | i, fuel + 1 =>
    if i < limit then
      if GET_ALLOC s i = 0 ∧ sub32 asize DSIZE ≤ GET_SIZE s (HDRP i) then
        some (some i)
      else
        find_fit_loop s asize limit (NEXT_BLKP s i) fuel
    else some none

/-- C: `find_fit(asize)` of mm.c, lines 218-236: scan `[curr_block, brk)`
then `[heap_listp, curr_block)`; inner `none` is the C NULL return. -/
def find_fit (s : MMState) (asize : Nat) (fuel : Nat) : Option (Option Int) :=
  match find_fit_loop s asize s.brk s.curr_block fuel with
  | none => none
  | some (some i) => some (some i)
  | some none =>
    match find_fit_loop s asize s.curr_block s.heap_listp fuel with
    | none => none
    | some r => some r

/-- One conditional XOR of mm_free: `if ((*p & 0x1) == 1) *p = *p ^ 0x1;`. -/
def clear_low_bit (s : MMState) (p : Int) : MMState :=
  if GET s p &&& 1 = 1 then PUT s p (GET s p ^^^ 1) else s

/-- The flag-clearing step of `mm_free` (mm.c lines 246-253): `HDptr` and
`Fptr` are computed first (so `Fptr` uses the original header size), then
the allocated bit of header and footer is XORed away when it is set. -/
def free_flag_step (s : MMState) (bp : Int) : MMState :=
  clear_low_bit (clear_low_bit s (HDRP bp)) (FTRP s bp)

/-- C: `mm_free(bp)` of mm.c, lines 241-256: clear the flags, then coalesce. -/
def mm_free (s : MMState) (bp : Int) : MMState :=
  (coalesce (free_flag_step s bp) bp).2

/-- C: `place(bp, asize)` of mm.c, lines 337-353, transcribed with the C
evaluation order (each `FTRP`/`NEXT_BLKP` reads the memory written so far)
and the uint32 subtractions. -/
def place (s : MMState) (bp : Int) (asize : Nat) : MMState :=
  let blockSize := GET_SIZE s (HDRP bp)
  if 16 ≤ sub32 blockSize asize then
    let s1 := PUT s (HDRP bp) (PACK asize 1)
    let s2 := PUT s1 (FTRP s1 bp) (PACK asize 1)
    let s3 := PUT s2 (HDRP (NEXT_BLKP s2 bp)) (PACK (sub32 asize blockSize) 0)
    let s4 := PUT s3 (FTRP s3 (NEXT_BLKP s3 bp)) (PACK (sub32 asize blockSize) 0)
    (coalesce s4 (NEXT_BLKP s4 bp)).2
  else
    let s1 := PUT s (HDRP bp) (PACK asize 1)
    PUT s1 (FTRP s1 bp) (PACK asize 1)

/-- C: `mm_malloc(size)` of mm.c, lines 312-328.  Outer `none` is fuel
exhaustion inside `find_fit`; otherwise the result is the returned pointer
(0 = NULL) and the final state. -/
def mm_malloc (s : MMState) (size : Nat) (fuel : Nat) : Option (Int × MMState) :=
  let asize := (size + DSIZE) % U32
  if size < 16 then some (0, s)
  else
    match find_fit s asize fuel with
    | none => none
    | some fitOpt =>
      let fit0 : Int := match fitOpt with | some p => p | none => 0
      let r := if fit0 = 0 then extend_heap s (asize / WSIZE) else (fit0, s)
      some (r.1, place r.2 r.1 asize)

/-- C `memcpy(dst, src, n)` on this byte memory, for non-overlapping
regions (overlapping copies are undefined in C; this model reads from the
pre-state). -/
def memcpy (s : MMState) (dst src : Int) (n : Nat) : MMState :=
  { s with mem := fun q =>
      if dst ≤ q ∧ q < dst + (n : Int) then s.mem (src + (q - dst)) else s.mem q }

/-- Result of `mm_realloc`: either the process abort of the
`newp == NULL` branch (printf + exit(1)) or the returned pointer and state. -/
inductive ReallocResult
  | abort
  | ok (ptr : Int) (s : MMState)

/-- C: `mm_realloc(ptr, size)` of mm.c, lines 359-376. -/
def mm_realloc (s : MMState) (ptr : Int) (size : Nat) (fuel : Nat) :
    Option ReallocResult :=
  match mm_malloc s size fuel with
  | none => none
  | some (newp, s1) =>
    if newp = 0 then some ReallocResult.abort
    else
      let copySize := GET_SIZE s1 (HDRP ptr)
      let copySize := if size % U32 < copySize then size % U32 else copySize
      let s2 := memcpy s1 newp ptr copySize
      some (ReallocResult.ok newp (mm_free s2 ptr))

/-- Forward block traversal as in `mm_checkheap` (mm.c line 399): visit
blocks while the header size is positive, stepping with `NEXT_BLKP`. -/
def traverse (s : MMState) : Int → Nat → List Int
  | _, 0 => []
  | bp, fuel + 1 =>
    if 0 < GET_SIZE s (HDRP bp) then bp :: traverse s (NEXT_BLKP s bp) fuel
    else []

/-- Boundary-tag symmetry of one block: its header word equals its footer
word (the property `checkblock` tests at mm.c line 440). -/
def hdrFtrOk (s : MMState) (bp : Int) : Prop :=
  GET s (HDRP bp) = GET s (FTRP s bp)

instance (s : MMState) (bp : Int) : Decidable (hdrFtrOk s bp) := by
  unfold hdrFtrOk; infer_instance

/-- The spec's size rounding (§4.4): `align_up(size + overhead)` to the
8-byte alignment unit.  Stated from the spec's words, for comparison with
the `asize` the code actually computes. -/
def align_up (n : Nat) : Nat := 8 * ((n + 7) / 8)

/-- All-zero environment memory. -/
def zmem : Int → Nat := fun _ => 0

/-- Build a concrete heap state over zeroed memory: heap start 1024, given
break, and the given list of word writes. -/
def mkS (brk : Int) (ws : List (Int × Nat)) : MMState :=
  ws.foldl (fun s pv => PUT s pv.1 pv.2)
    { mem := zmem, heap_listp := 1024, curr_block := 1024, brk := brk }

/-- Fresh state before `mm_init`: nothing obtained from the heap yet. -/
def Sfresh : MMState := mkS 1024 []

/-- The heap exactly as mm_init leaves it just before its `extend_heap`
call: pad, the two PACK(0,1) prologue words, the PACK(0,1) epilogue word. -/
def S2pre : MMState := mkS 1040 [(1024, 0), (1028, 1), (1032, 1), (1036, 1)]

/-- A well-formed heap for the coalescing claims: block A at 1040
(size 24, free), block B at 1064 (size 16, allocated), block C at 1080
(size 16, free), block D at 1096 (size 8, allocated), epilogue header at
1100.  The word 1068 (inside B's payload) is the byte pattern 8. -/
def S4 : MMState := mkS 5120
  [(1036, 24), (1056, 24), (1060, 17), (1068, 8), (1072, 17),
   (1076, 16), (1088, 16), (1092, 9), (1096, 9), (1100, 1)]

/-- A free block of size 48 at 1040 (header 1036, footer 1080). -/
def S3a : MMState := mkS 5120 [(1036, 48), (1080, 48)]

/-- A free block of size 32 at 1040 (header 1036, footer 1064). -/
def S3b : MMState := mkS 5120 [(1036, 32), (1064, 32)]

/-- A heap where find_fit's walk reaches a free block of size 32 at 1040;
the word below the heap start (1020) steers the walk past the pad. -/
def S5 : MMState := mkS 5120 [(1020, 16), (1036, 32)]

/-- As S5 but the block at 1040 has size 24 only. -/
def S6b : MMState := mkS 5120 [(1020, 16), (1036, 24)]

/-- As S5 but the block at 1040 is marked allocated in its header (33);
its first payload word (1040) is 0. -/
def S6c : MMState := mkS 5120 [(1020, 16), (1036, 33)]

/-- Heap for the realloc claim: a free block of size 112 at 1040 for the
internal malloc, and an allocated block of size 24 at 1224 (header 1220,
footer 1240) surrounded by allocated neighbours; 1236 is a payload word. -/
def S9 : MMState := mkS 5120
  [(1020, 16), (1036, 112), (1212, 9), (1216, 8), (1220, 25),
   (1236, 7), (1240, 25), (1244, 9)]

/-- Projection: pointer of a successful realloc result. -/
def reallocOkPtr : Option ReallocResult → Option Int
  | some (ReallocResult.ok p _) => some p
  | _ => none

/-- Projection: state of a successful realloc result (default otherwise). -/
def reallocOkState (d : MMState) : Option ReallocResult → MMState
  | some (ReallocResult.ok _ s) => s
  | _ => d

/-! ### Lemmas about the word accessors -/

lemma mem_PUT (s : MMState) (p : Int) (v : Nat) (q : Int) :
    (PUT s p v).mem q =
      if q = p + 3 then v % U32 / 16777216 % 256 % 256
      else if q = p + 2 then v % U32 / 65536 % 256 % 256
      else if q = p + 1 then v % U32 / 256 % 256 % 256
      else if q = p then v % U32 % 256 % 256
      else s.mem q := rfl

lemma mem_PUT_out (s : MMState) (p : Int) (v : Nat) (q : Int)
    (h : q < p ∨ p + 4 ≤ q) : (PUT s p v).mem q = s.mem q := by
  rw [mem_PUT, if_neg (by omega), if_neg (by omega), if_neg (by omega),
    if_neg (by omega)]

lemma GET_PUT_out (s : MMState) (p : Int) (v : Nat) (q : Int)
    (h : q + 4 ≤ p ∨ p + 4 ≤ q) : GET (PUT s p v) q = GET s q := by
  unfold GET
  rw [mem_PUT_out _ _ _ _ (by omega), mem_PUT_out _ _ _ _ (by omega),
    mem_PUT_out _ _ _ _ (by omega), mem_PUT_out _ _ _ _ (by omega)]

lemma GET_PUT_same (s : MMState) (p : Int) (v : Nat) :
    GET (PUT s p v) p = v % U32 := by
  unfold GET
  rw [mem_PUT, mem_PUT, mem_PUT, mem_PUT]
  rw [if_neg (by omega : ¬(p = p + 3)), if_neg (by omega : ¬(p = p + 2)),
    if_neg (by omega : ¬(p = p + 1)), if_pos rfl]
  rw [if_neg (by omega : ¬(p + 1 = p + 3)), if_neg (by omega : ¬(p + 1 = p + 2)),
    if_pos rfl]
  rw [if_neg (by omega : ¬(p + 2 = p + 3)), if_pos rfl]
  rw [if_pos rfl]
  have hU : v % U32 < U32 := Nat.mod_lt v (by norm_num [U32])
  unfold U32 at hU ⊢
  omega

lemma mem_PUT_lt (s : MMState) (p : Int) (v : Nat)
    (hB : ∀ q, s.mem q < 256) : ∀ q, (PUT s p v).mem q < 256 := by
  intro q
  rw [mem_PUT]
  split_ifs
  · exact Nat.mod_lt _ (by norm_num)
  · exact Nat.mod_lt _ (by norm_num)
  · exact Nat.mod_lt _ (by norm_num)
  · exact Nat.mod_lt _ (by norm_num)
  · exact hB q

lemma foldl_PUT_bytes (ws : List (Int × Nat)) (s : MMState)
    (hB : ∀ q, s.mem q < 256) :
    ∀ q, (ws.foldl (fun s pv => PUT s pv.1 pv.2) s).mem q < 256 := by
  induction ws generalizing s with
  | nil => exact hB
  | cons a t ih => exact ih _ (mem_PUT_lt _ _ _ hB)

lemma mkS_bytes (brk : Int) (ws : List (Int × Nat)) :
    ∀ q, (mkS brk ws).mem q < 256 := by
  unfold mkS
  exact foldl_PUT_bytes _ _ (fun q => by norm_num [zmem])

lemma GET_lt_U32 (s : MMState) (hB : ∀ p, s.mem p < 256) (p : Int) :
    GET s p < U32 := by
  unfold GET U32
  have h0 := hB p
  have h1 := hB (p + 1)
  have h2 := hB (p + 2)
  have h3 := hB (p + 3)
  omega

/-! ### Bit-level lemmas for the flag-clearing step -/

lemma and_mask8_mod8 (v : Nat) : (v &&& 0xFFFFFFF8) % 8 = 0 := by
  have h1 : (v &&& 0xFFFFFFF8) % 8 = (v &&& 0xFFFFFFF8) &&& 7 := by
    have h := Nat.and_pow_two_sub_one_eq_mod (v &&& 0xFFFFFFF8) 3
    norm_num at h
    omega
  have h2 : (4294967288 &&& 7 : Nat) = 0 := by decide
  rw [h1, Nat.and_assoc]
  norm_num [h2]

lemma xor_one_of_odd (v : Nat) (h : v % 2 = 1) : v ^^^ 1 = v - 1 := by
  apply Nat.eq_of_testBit_eq
  intro i
  cases i with
  | zero =>
    rw [Nat.testBit_xor, Nat.testBit_zero, Nat.testBit_zero, Nat.testBit_zero]
    have h2 : (v - 1) % 2 = 0 := by omega
    rw [h, h2]
    decide
  | succ j =>
    rw [Nat.testBit_xor, Nat.testBit_succ, Nat.testBit_succ, Nat.testBit_succ]
    have h2 : (v - 1) / 2 = v / 2 := by omega
    rw [h2]
    norm_num

lemma sub_mod2_and_mask (v : Nat) :
    (v - v % 2) &&& 0xFFFFFFF8 = v &&& 0xFFFFFFF8 := by
  rcases Nat.mod_two_eq_zero_or_one v with h | h
  · rw [h]
    simp
  · rw [h, ← xor_one_of_odd v h, Nat.and_xor_distrib_right]
    norm_num

lemma sub_mod2_and_one (v : Nat) : (v - v % 2) &&& 1 = 0 := by
  rw [Nat.and_one_is_mod]
  omega

lemma clear_low_bit_GET_same (s : MMState) (p : Int) (hlt : GET s p < U32) :
    GET (clear_low_bit s p) p = GET s p - GET s p % 2 := by
  unfold clear_low_bit
  by_cases h1 : GET s p &&& 1 = 1
  · have hodd : GET s p % 2 = 1 := by
      have := Nat.and_one_is_mod (GET s p)
      omega
    rw [if_pos h1, GET_PUT_same, xor_one_of_odd _ hodd,
      Nat.mod_eq_of_lt (by omega), hodd]
  · have heven : GET s p % 2 = 0 := by
      have := Nat.and_one_is_mod (GET s p)
      omega
    rw [if_neg h1, heven]
    omega

lemma clear_low_bit_GET_out (s : MMState) (p q : Int)
    (h : q + 4 ≤ p ∨ p + 4 ≤ q) : GET (clear_low_bit s p) q = GET s q := by
  unfold clear_low_bit
  split_ifs with h1
  · exact GET_PUT_out _ _ _ _ h
  · rfl

lemma clear_low_bit_mem (s : MMState) (p q : Int)
    (h : q < p ∨ p + 4 ≤ q) : (clear_low_bit s p).mem q = s.mem q := by
  unfold clear_low_bit
  split_ifs with h1
  · exact mem_PUT_out _ _ _ _ h
  · rfl

lemma clear_low_bit_bytes (s : MMState) (p : Int)
    (hB : ∀ q, s.mem q < 256) : ∀ q, (clear_low_bit s p).mem q < 256 := by
  intro q
  unfold clear_low_bit
  split_ifs with h1
  · exact mem_PUT_lt _ _ _ hB q
  · exact hB q

lemma if_lt_eq_min (a b : Nat) : (if a < b then a else b) = min a b := by
  rcases Nat.lt_or_ge a b with h | h
  · rw [if_pos h, Nat.min_eq_left (Nat.le_of_lt h)]
  · rw [if_neg (Nat.not_lt.mpr h), Nat.min_eq_right h]

/-! ### The claims -/

/-- C1.  Refuted on the code: in the heap `S4` the block at 1064 has both
neighbours free (A at 1040, size 24; C at 1080, size 16), yet `mm_free 1064`
does not produce one free block spanning all three regions.  The `else if
(!prevAllocated)` branch of `coalesce` fires before the both-free case
(which is unreachable), merging only leftwards with a size (32) computed
from payload bytes instead of the union 24+16+16 = 56, and C stays a
separate free block, leaving two adjacent free blocks after the free. -/
theorem coalesce_both_free_not_merged :
    GET_ALLOC S4 (HDRP 1040) = 0 ∧ GET_ALLOC S4 (HDRP 1064) = 1 ∧
    GET_ALLOC S4 (HDRP 1080) = 0 ∧
    NEXT_BLKP S4 1040 = 1064 ∧ NEXT_BLKP S4 1064 = 1080 ∧
    GET (mm_free S4 1064) 1036 = 32 ∧ (32 : Nat) ≠ PACK 56 0 ∧
    GET (mm_free S4 1064) 1076 = 16 ∧
    GET_ALLOC (mm_free S4 1064) (HDRP 1080) = 0 ∧
    NEXT_BLKP (mm_free S4 1064) 1040 = 1072 ∧
    GET_ALLOC (mm_free S4 1064) (HDRP 1040) = 0 ∧
    GET_ALLOC (mm_free S4 1064) (HDRP 1072) = 0 := by decide

/-- C2.  Refuted on the code: `extend_heap` only calls `mem_sbrk` and
`coalesce`.  On the heap exactly as `mm_init` has prepared it, growing by
1024 words moves the break to 5136 but writes nothing: the old epilogue
word 1036 still holds PACK(0,1) (size 0, not the 4096 grown bytes), and
the word 5132 before the new break — where a fresh size-0/allocated
epilogue should be — holds 0, whose allocated flag is clear. -/
theorem extend_heap_unformatted :
    (extend_heap S2pre 1024).1 = 1040 ∧
    (extend_heap S2pre 1024).2.brk = 5136 ∧
    GET (extend_heap S2pre 1024).2 1036 = 1 ∧
    GET_SIZE (extend_heap S2pre 1024).2 1036 = 0 ∧ (0 : Nat) ≠ 4096 ∧
    GET (extend_heap S2pre 1024).2 5132 = 0 ∧
    GET_ALLOC (extend_heap S2pre 1024).2 5132 = 0 ∧ (0 : Nat) ≠ 1 := by decide

/-- C3.  Refuted on the code: on a free block of size 48 at 1040,
`place 1040 24` takes the split branch but writes the remainder header at
1060 with the wrapped uint32 `asize - blockSize` = 2^32-24, not
`blockSize - asize` = 24; and on a free block of size 32 (remainder 8 < 16)
the no-split branch writes PACK(24,1) — the requested size — instead of the
full block size PACK(32,1), leaving the stale size-32 footer at 1064. -/
theorem place_writes_wrong_sizes :
    GET_SIZE S3a (HDRP 1040) = 48 ∧
    GET (place S3a 1040 24) 1036 = PACK 24 1 ∧
    GET (place S3a 1040 24) 1060 = 4294967272 ∧
    (4294967272 : Nat) ≠ PACK 24 0 ∧
    GET_SIZE S3b (HDRP 1040) = 32 ∧
    GET (place S3b 1040 24) 1036 = PACK 24 1 ∧
    (PACK 24 1 : Nat) ≠ PACK 32 1 ∧
    GET (place S3b 1040 24) 1064 = 32 := by decide

/-- C4.  Refuted on the code: in the heap `S4` every block reachable by
forward traversal from the first real block 1040 satisfies header = footer,
but after the public operation `mm_free 1064` completes, the traversal
reaches a block (1072) whose header word (8) differs from its footer word
(16): `coalesce` rewrote A's header with a size computed from payload
bytes and planted the merged footer inside B's old payload. -/
theorem free_breaks_boundary_tag_symmetry :
    (∀ bp ∈ traverse S4 1040 20, hdrFtrOk S4 bp) ∧
    1072 ∈ traverse (mm_free S4 1064) 1040 20 ∧
    ¬ hdrFtrOk (mm_free S4 1064) 1072 := by decide

/-- C5.  Refuted on the code: `mm_malloc` computes `asize = size + DSIZE`
with no alignment rounding.  For the request 17 the successful allocation
at 1040 writes the header PACK(25,1) = 25 (an internal block size of 25,
stored with size bits 24), while the claimed `align_up(17+8)` is 32 and
would give the header PACK(32,1) = 33. -/
theorem malloc_asize_not_aligned :
    (mm_malloc S5 17 50).map Prod.fst = some 1040 ∧
    (mm_malloc S5 17 50).map (fun r => GET r.2 1036) = some (PACK 25 1) ∧
    (mm_malloc S5 17 50).map (fun r => GET_SIZE r.2 1036) = some 24 ∧
    align_up (17 + OVERHEAD) = 32 ∧ (PACK 25 1 : Nat) ≠ PACK 32 1 := by decide

/-- C6.  Refuted on the code: nothing in mm.c ever advances `curr_block`
after `mm_init`.  In `S6c` the allocation of 17 bytes succeeds and returns
1040, yet `curr_block` is still the heap start 1024; moreover the returned
block's header (33) is allocated — `find_fit` reads the allocated flag from
the payload word at `bp`, not from the header — and in `S6b` a block of
size 24 < asize = 25 is accepted because the scan compares against
`asize - DSIZE`. -/
theorem find_fit_cursor_not_advanced :
    (mm_malloc S6c 17 50).map Prod.fst = some 1040 ∧
    (mm_malloc S6c 17 50).map (fun r => r.2.curr_block) = some 1024 ∧
    (1024 : Int) ≠ 1040 ∧
    GET_ALLOC S6c (HDRP 1040) = 1 ∧ GET_ALLOC S6c 1040 = 0 ∧
    (mm_malloc S6b 17 50).map Prod.fst = some 1040 ∧
    GET_SIZE S6b (HDRP 1040) = 24 ∧ 24 < 25 := by decide

/-- C7.  Refuted on the code: after a successful `mm_init` the prologue
header (1028) and footer (1032) both hold PACK(0,1) = 1, i.e. size 0, not
the fixed size DSIZE = 8 the claim (and `mm_checkheap`) requires; and the
word before the break (5132) — the epilogue position after the initial
growth — has a clear allocated flag. -/
theorem init_prologue_size_zero :
    (mm_init Sfresh).isSome = true ∧
    ((mm_init Sfresh).getD Sfresh).brk = 5136 ∧
    GET ((mm_init Sfresh).getD Sfresh) 1028 = 1 ∧
    GET ((mm_init Sfresh).getD Sfresh) 1032 = 1 ∧
    GET_SIZE ((mm_init Sfresh).getD Sfresh) 1028 = 0 ∧ (0 : Nat) ≠ DSIZE ∧
    GET_ALLOC ((mm_init Sfresh).getD Sfresh) 5132 = 0 ∧ (0 : Nat) ≠ 1 := by decide

/-- C8.  Confirmed: for every request below 16 bytes — the minimum usable
payload the design supports (mm.c line 316) — `mm_malloc` returns NULL
immediately, touching no memory, for every state and fuel. -/
theorem malloc_small_size_returns_null (s : MMState) (size fuel : Nat)
    (h : size < 16) : mm_malloc s size fuel = some (0, s) := by
  unfold mm_malloc
  simp [h]

theorem malloc_small_size_returns_null_witness :
    (5 : Nat) < 16 ∧ mm_malloc S2pre 5 0 = some (0, S2pre) :=
  ⟨by decide, malloc_small_size_returns_null S2pre 5 0 (by decide)⟩

/-- C9, counterexample.  The old block at 1224 has header size 24, hence a
payload capacity of 16 bytes; the claim's copy of min(old payload, new
size) = min(16, 100) = 16 bytes would leave byte 1040+16 = 1056 of the new
block at its prior value 0.  The code instead copies
`GET_SIZE(HDRP(ptr))` = 24 bytes, so byte 1056 receives the old footer
byte 25. -/
theorem realloc_copies_overhead_bytes :
    GET_SIZE S9 (HDRP 1224) = 24 ∧ S9.mem 1056 = 0 ∧
    reallocOkPtr (mm_realloc S9 1224 100 50) = some 1040 ∧
    (reallocOkState S9 (mm_realloc S9 1224 100 50)).mem 1056 = 25 ∧
    (25 : Nat) ≠ 0 := by decide

/-- C9, amended.  `mm_realloc` unconditionally allocates a new block,
copies min(old block size as stored in the header — payload plus 8 bytes
of header/footer overhead — , new size) bytes from the old block to the
new one, frees the old block and returns the new pointer; if the internal
allocation returns NULL it aborts the process instead of returning. -/
theorem realloc_amended_behavior (s : MMState) (ptr : Int) (size fuel : Nat) :
    (∀ s1, mm_malloc s size fuel = some (0, s1) →
      mm_realloc s ptr size fuel = some ReallocResult.abort) ∧
    (∀ newp s1, mm_malloc s size fuel = some (newp, s1) → newp ≠ 0 →
      mm_realloc s ptr size fuel = some (ReallocResult.ok newp
        (mm_free (memcpy s1 newp ptr
          (min (size % U32) (GET_SIZE s1 (HDRP ptr)))) ptr))) := by
  constructor
  · intro s1 h
    unfold mm_realloc
    rw [h]
    rfl
  · intro newp s1 h hne
    unfold mm_realloc
    rw [h]
    simp only [if_neg hne, if_lt_eq_min]

theorem realloc_amended_behavior_witness :
    mm_realloc S9 1224 100 50 = some (ReallocResult.ok 1040
      (mm_free (memcpy (place S9 1040 108) 1040 1224
        (min ((100 : Nat) % U32)
          (GET_SIZE (place S9 1040 108) (HDRP 1224)))) 1224)) :=
  (realloc_amended_behavior S9 1224 100 50).2 1040 (place S9 1040 108)
    rfl (by decide)

/-- C10.  Confirmed: on byte memory, the flag-clearing step of `mm_free`
changes each of the header word and the footer word by exactly its low
bit (a set allocated flag is cleared, a clear one is left clear), keeps
both size fields, and leaves every byte outside those two words — in
particular the whole payload — untouched, before `coalesce` runs. -/
theorem free_flag_step_only_bit0 (s : MMState) (bp : Int)
    (hB : ∀ p, s.mem p < 256) :
    GET (free_flag_step s bp) (HDRP bp)
        = GET s (HDRP bp) - GET s (HDRP bp) % 2 ∧
    GET (free_flag_step s bp) (FTRP s bp)
        = GET s (FTRP s bp) - GET s (FTRP s bp) % 2 ∧
    GET_SIZE (free_flag_step s bp) (HDRP bp) = GET_SIZE s (HDRP bp) ∧
    GET_SIZE (free_flag_step s bp) (FTRP s bp) = GET_SIZE s (FTRP s bp) ∧
    GET_ALLOC (free_flag_step s bp) (HDRP bp) = 0 ∧
    GET_ALLOC (free_flag_step s bp) (FTRP s bp) = 0 ∧
    ∀ p : Int, (p < HDRP bp ∨ HDRP bp + 4 ≤ p) →
      (p < FTRP s bp ∨ FTRP s bp + 4 ≤ p) →
      (free_flag_step s bp).mem p = s.mem p := by
  have hHlt : GET s (HDRP bp) < U32 := GET_lt_U32 s hB _
  have hFlt : GET s (FTRP s bp) < U32 := GET_lt_U32 s hB _
  have hsz : GET_SIZE s (HDRP bp) % 8 = 0 := and_mask8_mod8 _
  have hsep : FTRP s bp + 4 ≤ HDRP bp ∨ HDRP bp + 4 ≤ FTRP s bp := by
    unfold FTRP HDRP at *
    omega
  have hA1 : GET (clear_low_bit s (HDRP bp)) (HDRP bp)
      = GET s (HDRP bp) - GET s (HDRP bp) % 2 :=
    clear_low_bit_GET_same _ _ hHlt
  have hA2 : GET (clear_low_bit s (HDRP bp)) (FTRP s bp) = GET s (FTRP s bp) :=
    clear_low_bit_GET_out _ _ _ (by omega)
  have hFlt1 : GET (clear_low_bit s (HDRP bp)) (FTRP s bp) < U32 := by
    rw [hA2]
    exact hFlt
  have hB1 : GET (free_flag_step s bp) (FTRP s bp)
      = GET (clear_low_bit s (HDRP bp)) (FTRP s bp)
        - GET (clear_low_bit s (HDRP bp)) (FTRP s bp) % 2 :=
    clear_low_bit_GET_same _ _ hFlt1
  have hB2 : GET (free_flag_step s bp) (HDRP bp)
      = GET (clear_low_bit s (HDRP bp)) (HDRP bp) :=
    clear_low_bit_GET_out _ _ _ (by omega)
  have hGH : GET (free_flag_step s bp) (HDRP bp)
      = GET s (HDRP bp) - GET s (HDRP bp) % 2 := by
    rw [hB2, hA1]
  have hGF : GET (free_flag_step s bp) (FTRP s bp)
      = GET s (FTRP s bp) - GET s (FTRP s bp) % 2 := by
    rw [hB1, hA2]
  refine ⟨hGH, hGF, ?_, ?_, ?_, ?_, ?_⟩
  · unfold GET_SIZE
    rw [hGH, sub_mod2_and_mask]
  · unfold GET_SIZE
    rw [hGF, sub_mod2_and_mask]
  · unfold GET_ALLOC
    rw [hGH, sub_mod2_and_one]
  · unfold GET_ALLOC
    rw [hGF, sub_mod2_and_one]
  · intro p hph hpf
    unfold free_flag_step
    rw [clear_low_bit_mem _ _ _ (by omega), clear_low_bit_mem _ _ _ (by omega)]

theorem free_flag_step_only_bit0_witness :
    GET (free_flag_step S2pre 1040) (HDRP 1040)
        = GET S2pre (HDRP 1040) - GET S2pre (HDRP 1040) % 2 ∧
    GET_ALLOC (free_flag_step S2pre 1040) (HDRP 1040) = 0 ∧
    (free_flag_step S2pre 1040).mem 1050 = S2pre.mem 1050 :=
  ⟨(free_flag_step_only_bit0 S2pre 1040 (mkS_bytes 1040 _)).1,
   (free_flag_step_only_bit0 S2pre 1040 (mkS_bytes 1040 _)).2.2.2.2.1,
   (free_flag_step_only_bit0 S2pre 1040 (mkS_bytes 1040 _)).2.2.2.2.2.2 1050
     (by decide) (by decide)⟩

end Malloc
